import Mathlib

/-!
# Verification of the wave103 music-bot command core

Shallow embedding of `src/wave103.py`: a Discord music bot with a single
process-global queue of resolved track metadata, a voice-client handle
tracking playback state, and command handlers (`play`, `play_next`, `skip`,
`current`, `queue`, `remove`, `clear`, `pause`, `resume`, `volume`, `stop`).

External collaborators (the yt-dlp resolver, the Discord voice transport)
are modelled as parameters and emitted events: the resolver's result is an
`Option VideoData` argument, transport calls become `Event` constructors,
and every handler returns an `Outcome` holding the emitted events, the
updated state, and an optional Python-level exception (`PyErr`) when the
handler dereferences `None` — the handler crashes, the surrounding
framework survives.
-/

/-- The dictionary returned by `search_youtube` / stored in `queue`
(`video_data` in the source): the fields the handlers actually read. -/
structure VideoData where
  title : String
  url : String
  webpage_url : String
  uploader : String
  thumbnail : String
deriving DecidableEq, Repr

/-- A `YTDLSource` audio source: a `PCMVolumeTransformer` over the stream
for one track, with a live-adjustable amplitude multiplier (`volume`,
default `0.5` in `YTDLSource.__init__`). -/
structure Source where
  data : VideoData
  volume : ℚ
deriving DecidableEq, Repr

/-- Playback state of the external voice client: `is_playing()` is true
exactly in `playing`, `is_paused()` exactly in `paused`. -/
inductive PlayState where
  | idle
  | playing
  | paused
deriving DecidableEq, Repr

/-- The Discord `VoiceClient` handle (`ctx.voice_client` when connected):
the channel it sits in, its playback state, and its current `source`. -/
structure VoiceClient where
  channel : Nat
  state : PlayState
  source : Option Source
deriving DecidableEq, Repr

/-- Process-global mutable state of the bot: the global `queue` list and
`ctx.voice_client` (`none` when the bot is in no voice channel). -/
structure BotState where
  queue : List VideoData
  voiceClient : Option VoiceClient
deriving DecidableEq, Repr

/-- A Python exception escaping a handler body. `attrErrorNone` models an
`AttributeError` from an attribute access on `None`; `subscriptNone` a
`TypeError` from subscripting `None`. -/
inductive PyErr where
  | attrErrorNone
  | subscriptNone
deriving DecidableEq, Repr

/-- The embed messages the handlers send, one constructor per distinct
`discord.Embed` in the source, carrying the data interpolated into it. -/
inductive Msg where
  | joinVoiceChannel
  | addedToQueue (title : String)
  | couldNotFind
  | nowPlaying (title url uploader thumbnail : String)
  | notInVoice
  | botNotConnected
  | queueEmptyUseStop
  | skipping
  | notPlaying
  | currentlyPlaying (title : String)
  | queueEmptyMsg
  | queueListing (entries : List (Nat × String))
  | removed (title : String)
  | invalidSongNumber
  | cleared
  | pausing
  | resuming
  | notPaused
  | settingVolume (v : Int)
  | botNotInVoiceChannel
  | disconnecting
deriving DecidableEq, Repr

/-- Observable side effects of a handler, in program order: calls into the
voice transport and the resolver, and messages sent to the text channel. -/
inductive Event where
  | connect (ch : Nat)
  | moveTo (ch : Nat)
  | resolveQuery
  | resolveStream (url : String)
  | startStream (vd : VideoData)
  | stopStream
  | pauseStream
  | resumeStream
  | disconnectVoice
  | send (m : Msg)
deriving DecidableEq, Repr

/-- Result of running one handler body: the events it emitted (in order),
the state it left behind, and the exception it raised, if any. -/
structure Outcome where
  events : List Event
  state : BotState
  err : Option PyErr
deriving DecidableEq, Repr

/-- A handler run that only sends one message and changes nothing. -/
def sendOnly (m : Msg) (s : BotState) : Outcome :=
  ⟨[.send m], s, none⟩

/-- A task scheduled onto the event loop by a callback. -/
inductive Sched where
  | playNextTask
deriving DecidableEq, Repr

/-- The `after_playing` completion callback defined inside `play_next`
(lines 152–156): on an error it only prints; only on error-free completion
does it schedule `play_next(ctx)` onto the loop. -/
def after_playing (error : Option String) : List Sched :=
  match error with
  | some _ => []
  | none => [.playNextTask]

/-- The `play_next` handler (lines 146–167): if the queue is non-empty,
pop the head, resolve its stream URL (`YTDLSource.from_url`, default
amplitude `0.5`), hand the source to `ctx.voice_client.play` registering
`after_playing`, and announce the track. There is no check of the current
playback state anywhere in the body. -/
def play_next (s : BotState) : Outcome :=
  match s.queue with
  | [] => ⟨[], s, none⟩
  | vd :: rest =>
    match s.voiceClient with
    | none =>
      ⟨[.resolveStream vd.url], { s with queue := rest }, some .attrErrorNone⟩
    | some vc =>
      ⟨[.resolveStream vd.url, .startStream vd,
          .send (.nowPlaying vd.title vd.webpage_url vd.uploader vd.thumbnail)],
        { s with
            queue := rest
            voiceClient := some { vc with state := .playing, source := some ⟨vd, 1 / 2⟩ } },
        none⟩

/-- Lines 126–129 of `play`: connect if not connected, move if connected
to a different channel than the requester's, otherwise leave alone.
Returns the transport events together with the updated state. -/
def joinOrMove (s : BotState) (ch : Nat) : List Event × BotState :=
  match s.voiceClient with
  | none => ([.connect ch], { s with voiceClient := some ⟨ch, .idle, none⟩ })
  | some vc =>
    if vc.channel ≠ ch then
      ([.moveTo ch], { s with voiceClient := some { vc with channel := ch } })
    else
      ([], s)

/-- The `play` handler (lines 109–143). `authorVoice` is the requester's
voice channel (`none` when `ctx.author.voice is None`); `r` is what the
executor call to `search_youtube` returns (`none` on any resolver failure).
The body: precondition message, join-or-move, resolve, then build the
"Added to queue" embed from `video_data['title']` — which subscripts
`None` and raises when resolution failed, before the `None` guard on line
135 can run — then append to the queue and auto-start via `play_next` if
the voice client is not currently playing. -/
def play (s : BotState) (authorVoice : Option Nat) (r : Option VideoData) : Outcome :=
  match authorVoice with
  | none => sendOnly .joinVoiceChannel s
  | some ch =>
    let c := joinOrMove s ch
    match r with
    | none => ⟨c.1 ++ [.resolveQuery], c.2, some .subscriptNone⟩
    | some vd =>
      let evs := c.1 ++ [.resolveQuery, .send (.addedToQueue vd.title)]
      let s2 : BotState := { c.2 with queue := c.2.queue ++ [vd] }
      match s2.voiceClient with
      | none => ⟨evs, s2, some .attrErrorNone⟩
      | some vc =>
        if vc.state = .playing then
          ⟨evs, s2, none⟩
        else
          let o := play_next s2
          ⟨evs ++ o.events, o.state, o.err⟩

/-- The `skip` handler (lines 169–198): requires the requester in voice,
the bot connected, and — before even looking at the current track — a
non-empty queue; only then, if playing, stops the current stream. -/
def skip (s : BotState) (authorVoice : Option Nat) : Outcome :=
  match authorVoice with
  | none => sendOnly .notInVoice s
  | some _ =>
    match s.voiceClient with
    | none => sendOnly .botNotConnected s
    | some vc =>
      if s.queue = [] then
        sendOnly .queueEmptyUseStop s
      else if vc.state = .playing then
        ⟨[.stopStream, .send .skipping],
          { s with voiceClient := some { vc with state := .idle } }, none⟩
      else
        sendOnly .notPlaying s

/-- The `current` handler (lines 201–215): calls
`ctx.voice_client.is_playing()` with no `None` guard, so it raises when
the bot is not connected; when playing it reads the source's title. -/
def current_song (s : BotState) : Outcome :=
  match s.voiceClient with
  | none => ⟨[], s, some .attrErrorNone⟩
  | some vc =>
    if vc.state = .playing then
      match vc.source with
      | none => ⟨[], s, some .attrErrorNone⟩
      | some src => sendOnly (.currentlyPlaying src.data.title) s
    else
      sendOnly .notPlaying s

/-- The `queue` handler (lines 218–235): enumerates the queue in stored
order, labelling entry `i` (0-based internally) as `i + 1` for the user. -/
def queue_info (s : BotState) : Outcome :=
  if s.queue = [] then
    sendOnly .queueEmptyMsg s
  else
    sendOnly (.queueListing (s.queue.enum.map fun p => (p.1 + 1, p.2.title))) s

/-- The `remove` handler (lines 237–263): rejects an empty queue, rejects
`song_number` outside `[1, len(queue)]`, otherwise pops the 0-based index
`song_number - 1` and reports the removed title. -/
def remove_song (s : BotState) (song_number : Int) : Outcome :=
  if s.queue = [] then
    sendOnly .queueEmptyMsg s
  else if song_number < 1 ∨ (s.queue.length : Int) < song_number then
    sendOnly .invalidSongNumber s
  else
    match s.queue.get? (song_number - 1).toNat with
    | some vd =>
      ⟨[.send (.removed vd.title)],
        { s with queue := s.queue.eraseIdx (song_number - 1).toNat }, none⟩
    | none => sendOnly .invalidSongNumber s

/-- The `clear` handler (lines 265–275): `queue.clear()` and a message;
the voice client (current track, playback state) is untouched. -/
def clear_queue (s : BotState) : Outcome :=
  ⟨[.send .cleared], { s with queue := [] }, none⟩

/-- The `pause` handler (lines 278–292): calls
`ctx.voice_client.is_playing()` with no `None` guard (raises when not
connected); pauses only when playing. -/
def pause (s : BotState) : Outcome :=
  match s.voiceClient with
  | none => ⟨[], s, some .attrErrorNone⟩
  | some vc =>
    if vc.state = .playing then
      ⟨[.pauseStream, .send .pausing],
        { s with voiceClient := some { vc with state := .paused } }, none⟩
    else
      sendOnly .notPlaying s

/-- The `resume` handler (lines 295–309): calls
`ctx.voice_client.is_paused()` with no `None` guard (raises when not
connected); resumes only when paused. -/
def resume (s : BotState) : Outcome :=
  match s.voiceClient with
  | none => ⟨[], s, some .attrErrorNone⟩
  | some vc =>
    if vc.state = .paused then
      ⟨[.resumeStream, .send .resuming],
        { s with voiceClient := some { vc with state := .playing } }, none⟩
    else
      sendOnly .notPaused s

/-- The `volume` handler (lines 312–328): reports when not connected;
otherwise assigns `ctx.voice_client.source.volume = volume / 100` with no
clamp — an attribute assignment on `None` (raising) when no source is
currently set. -/
def volume (s : BotState) (v : Int) : Outcome :=
  match s.voiceClient with
  | none => sendOnly .botNotInVoiceChannel s
  | some vc =>
    match vc.source with
    | none => ⟨[], s, some .attrErrorNone⟩
    | some src =>
      ⟨[.send (.settingVolume v)],
        { s with
            voiceClient := some { vc with source := some { src with volume := (v : ℚ) / 100 } } },
        none⟩

/-- The `stop` handler (lines 331–345): disconnects when connected,
otherwise reports; the queue is not cleared. -/
def stop (s : BotState) : Outcome :=
  match s.voiceClient with
  | none => sendOnly .botNotInVoiceChannel s
  | some _ => ⟨[.disconnectVoice, .send .disconnecting], { s with voiceClient := none }, none⟩

/-- `queue.append(video_data)` (line 140): enqueue at the tail. -/
def enqueue (q : List VideoData) (vd : VideoData) : List VideoData :=
  q ++ [vd]

/-- Concrete track fixture used in witnesses and counterexamples. -/
def vdA : VideoData := ⟨"A", "urlA", "pageA", "uploaderA", "thumbA"⟩

/-- Concrete track fixture used in witnesses and counterexamples. -/
def vdB : VideoData := ⟨"B", "urlB", "pageB", "uploaderB", "thumbB"⟩

/-- Concrete track fixture used in witnesses and counterexamples. -/
def vdC : VideoData := ⟨"C", "urlC", "pageC", "uploaderC", "thumbC"⟩

/-- `joinOrMove` never touches the queue. -/
theorem joinOrMove_queue (s : BotState) (ch : Nat) :
    (joinOrMove s ch).2.queue = s.queue := by
  cases h : s.voiceClient with
  | none => simp [joinOrMove, h]
  | some vc => by_cases hch : vc.channel = ch <;> simp [joinOrMove, h, hch]

/-- The only events `joinOrMove` emits are a connect or a move to the
requested channel. -/
theorem joinOrMove_events (s : BotState) (ch : Nat) :
    ∀ e ∈ (joinOrMove s ch).1, e = Event.connect ch ∨ e = Event.moveTo ch := by
  cases h : s.voiceClient with
  | none => simp [joinOrMove, h]
  | some vc => by_cases hch : vc.channel = ch <;> simp [joinOrMove, h, hch]

/-- After `joinOrMove`, the bot is connected to the requested channel. -/
theorem joinOrMove_channel (s : BotState) (ch : Nat) :
    ∃ vc, (joinOrMove s ch).2.voiceClient = some vc ∧ vc.channel = ch := by
  cases h : s.voiceClient with
  | none => exact ⟨⟨ch, .idle, none⟩, by simp [joinOrMove, h], rfl⟩
  | some vc =>
    by_cases hch : vc.channel = ch
    · exact ⟨vc, by simp [joinOrMove, h, hch], hch⟩
    · exact ⟨{ vc with channel := ch }, by simp [joinOrMove, h, hch], rfl⟩

/-- `play_next` leaves the voice client on the same channel. -/
theorem play_next_channel (s : BotState) (vc : VoiceClient)
    (h : s.voiceClient = some vc) :
    ∃ vc2, (play_next s).state.voiceClient = some vc2 ∧ vc2.channel = vc.channel := by
  cases hq : s.queue with
  | nil => exact ⟨vc, by simp [play_next, hq, h], rfl⟩
  | cons vd rest =>
    exact ⟨{ vc with state := .playing, source := some ⟨vd, 1 / 2⟩ },
      by simp [play_next, hq, h], rfl⟩

/-- C1: when the resolver returns `None` the `play` handler raises a
`TypeError` subscripting `None` while building the "Added to queue" embed
(line 132), before the dead `None` guard on line 135: the queue is left
unchanged and no auto-start happens, but the user never receives the
"could not find" message — the handler crashes instead of sending it. -/
theorem C1_play_resolution_failure (s : BotState) (ch : Nat) :
    (play s (some ch) none).err = some PyErr.subscriptNone ∧
    (play s (some ch) none).state.queue = s.queue ∧
    Event.send Msg.couldNotFind ∉ (play s (some ch) none).events ∧
    ∀ vd, Event.startStream vd ∉ (play s (some ch) none).events := by
  have hev : ∀ e ∈ (play s (some ch) none).events,
      e = Event.connect ch ∨ e = Event.moveTo ch ∨ e = Event.resolveQuery := by
    intro e he
    simp only [play] at he
    rcases List.mem_append.mp he with h | h
    · rcases joinOrMove_events s ch e h with h1 | h1
      · exact Or.inl h1
      · exact Or.inr (Or.inl h1)
    · simp at h
      exact Or.inr (Or.inr h)
  refine ⟨by simp [play], by simp [play, joinOrMove_queue], ?_, ?_⟩
  · intro hmem
    rcases hev _ hmem with h | h | h <;> simp at h
  · intro vd hmem
    rcases hev _ hmem with h | h | h <;> simp at h

/-- C2 counterexample: a completion callback invoked with an error
schedules zero `play_next` attempts, not exactly one — the queue halts on
a playback error instead of advancing. -/
theorem C2_error_halts_queue :
    after_playing (some "stream error") = [] := rfl

/-- C2 (amended): an error-free completion schedules exactly one
`play_next` task, and a completion with an error schedules none — the
error case is NOT treated identically to natural completion. -/
theorem C2_completion_schedules (e : String) :
    after_playing none = [Sched.playNextTask] ∧ after_playing (some e) = [] :=
  ⟨rfl, rfl⟩

/-- C4: `pause`, `resume` and `current` dereference `ctx.voice_client`
with no `None` guard, so with the bot not connected they raise an
`AttributeError` and send no message — unlike `skip`, `volume` and `stop`,
which guard this precondition with a friendly message. -/
theorem C4_unconnected_transport_commands_crash :
    pause ⟨[], none⟩ = ⟨[], ⟨[], none⟩, some PyErr.attrErrorNone⟩ ∧
    resume ⟨[], none⟩ = ⟨[], ⟨[], none⟩, some PyErr.attrErrorNone⟩ ∧
    current_song ⟨[], none⟩ = ⟨[], ⟨[], none⟩, some PyErr.attrErrorNone⟩ :=
  ⟨rfl, rfl, rfl⟩

/-- C9: `clear` empties the queue and leaves the voice client — hence
the currently playing track and the playback state — untouched, for every
starting state. -/
theorem C9_clear_preserves_playback (s : BotState) :
    (clear_queue s).state.queue = [] ∧
    (clear_queue s).state.voiceClient = s.voiceClient ∧
    (clear_queue s).err = none :=
  ⟨rfl, rfl, rfl⟩

/-- C3 counterexample: with the session already `playing` and a non-empty
queue, `play_next` is not a no-op — it pops the queue head and hands a new
stream to the transport's `play` call. -/
theorem C3_play_next_pops_while_playing :
    (play_next ⟨[vdA], some ⟨5, .playing, some ⟨vdB, 1 / 2⟩⟩⟩).state.queue = [] ∧
    Event.startStream vdA ∈
      (play_next ⟨[vdA], some ⟨5, .playing, some ⟨vdB, 1 / 2⟩⟩⟩).events := by
  refine ⟨rfl, ?_⟩
  simp [play_next]

/-- C3 (amended): `play_next` carries no `Playing` guard of its own —
whenever the queue is non-empty and a voice client exists it pops the head
and starts it, whatever the playback state; the only double-start
protection sits at `play`'s call site, which invokes `play_next` only when
the client is not playing, so a `play` issued while playing just enqueues. -/
theorem C3_play_next_no_playing_guard (s : BotState) (vd : VideoData)
    (rest : List VideoData) (vc : VoiceClient)
    (hq : s.queue = vd :: rest) (hvc : s.voiceClient = some vc) :
    ((play_next s).state.queue = rest ∧
      Event.startStream vd ∈ (play_next s).events) ∧
    (vc.state = .playing →
      ∀ vd2, (play s (some vc.channel) (some vd2)).state.queue = s.queue ++ [vd2] ∧
        ∀ e ∈ (play s (some vc.channel) (some vd2)).events,
          ∀ w, e ≠ Event.startStream w) := by
  constructor
  · constructor
    · simp [play_next, hq, hvc]
    · simp [play_next, hq, hvc]
  · intro hplay vd2
    constructor
    · simp [play, joinOrMove, hvc, hplay]
    · intro e he w
      simp [play, joinOrMove, hvc, hplay] at he
      rcases he with h | h <;> subst h <;> simp

/-- C3 witness: the amended theorem applied at a concrete playing state
with queue `[A]`: the head is popped and started. -/
theorem C3_play_next_no_playing_guard_witness :
    (play_next ⟨[vdA], some ⟨3, .playing, some ⟨vdB, 1 / 2⟩⟩⟩).state.queue = [] ∧
    Event.startStream vdA ∈
      (play_next ⟨[vdA], some ⟨3, .playing, some ⟨vdB, 1 / 2⟩⟩⟩).events :=
  (C3_play_next_no_playing_guard ⟨[vdA], some ⟨3, .playing, some ⟨vdB, 1 / 2⟩⟩⟩ vdA []
    ⟨3, .playing, some ⟨vdB, 1 / 2⟩⟩ rfl rfl).1

/-- C5 counterexample: bot connected, a track playing, user in voice, but
the queue is empty — by the claim the precondition "queue or current track
exists" is met and skip should stop the track, yet `skip` refuses with the
"queue is empty, use stop" message and never signals the transport. -/
theorem C5_skip_refuses_on_empty_queue :
    skip ⟨[], some ⟨2, .playing, some ⟨vdC, 1 / 2⟩⟩⟩ (some 2) =
      sendOnly .queueEmptyUseStop ⟨[], some ⟨2, .playing, some ⟨vdC, 1 / 2⟩⟩⟩ ∧
    Event.stopStream ∉ (skip ⟨[], some ⟨2, .playing, some ⟨vdC, 1 / 2⟩⟩⟩ (some 2)).events := by
  refine ⟨rfl, ?_⟩
  simp [skip, sendOnly]

/-- C5 (amended): `skip` requires the user in voice, the bot connected AND
a non-empty queue; when all hold and a track is playing it stops the
current stream (whose completion callback then schedules exactly one
`play_next`, advancing the queue); with an empty queue it refuses with a
message even while a track is playing. -/
theorem C5_skip_stops_when_queue_nonempty (s : BotState) (ch : Nat) (vc : VoiceClient)
    (hvc : s.voiceClient = some vc) (hq : s.queue ≠ []) (hp : vc.state = .playing) :
    skip s (some ch) =
      ⟨[.stopStream, .send .skipping],
        { s with voiceClient := some { vc with state := .idle } }, none⟩ ∧
    after_playing none = [Sched.playNextTask] ∧
    (∀ s2 vc2, s2.voiceClient = some vc2 → s2.queue = [] →
      skip s2 (some ch) = sendOnly .queueEmptyUseStop s2) := by
  refine ⟨?_, rfl, ?_⟩
  · simp [skip, hvc, hq, hp]
  · intro s2 vc2 h2 h2q
    simp [skip, h2, h2q]

/-- C5 witness: the amended theorem applied at a concrete connected,
playing state with queue `[B]`. -/
theorem C5_skip_stops_when_queue_nonempty_witness :
    skip ⟨[vdB], some ⟨7, .playing, some ⟨vdA, 1 / 2⟩⟩⟩ (some 7) =
      ⟨[.stopStream, .send .skipping],
        ⟨[vdB], some ⟨7, .idle, some ⟨vdA, 1 / 2⟩⟩⟩, none⟩ :=
  (C5_skip_stops_when_queue_nonempty ⟨[vdB], some ⟨7, .playing, some ⟨vdA, 1 / 2⟩⟩⟩ 7
    ⟨7, .playing, some ⟨vdA, 1 / 2⟩⟩ rfl (by simp) rfl).1

/-- C6 counterexample: with an active voice connection but no current
source (nothing ever played), `volume 150` does not set any multiplier —
the assignment `ctx.voice_client.source.volume = ...` raises an
`AttributeError` on `None`. -/
theorem C6_volume_crashes_without_source :
    (volume ⟨[], some ⟨4, .idle, none⟩⟩ 150).err = some PyErr.attrErrorNone ∧
    (volume ⟨[], some ⟨4, .idle, none⟩⟩ 150).events = [] :=
  ⟨rfl, rfl⟩

/-- C6 (amended): with an active voice connection and a current source,
`volume v` sets the source's amplitude multiplier to `v / 100` with no
upper clamp (150 yields 3/2); with no voice connection it reports a
not-connected message; with a connection but no current source it raises
instead of setting anything. -/
theorem C6_volume_unclamped (s : BotState) (vc : VoiceClient) (src : Source) (v : Int)
    (hvc : s.voiceClient = some vc) (hsrc : vc.source = some src) :
    volume s v =
      ⟨[.send (.settingVolume v)],
        ⟨s.queue, some ⟨vc.channel, vc.state, some ⟨src.data, (v : ℚ) / 100⟩⟩⟩,
        none⟩ ∧
    (∀ s2, s2.voiceClient = none → volume s2 v = sendOnly .botNotInVoiceChannel s2) ∧
    (150 : ℚ) / 100 = 3 / 2 := by
  refine ⟨?_, ?_, by norm_num⟩
  · simp [volume, hvc, hsrc]
  · intro s2 h2
    simp [volume, h2]

/-- C6 witness: the amended theorem applied with volume 150 on a playing
source — the multiplier becomes 150/100 = 3/2, unclamped. -/
theorem C6_volume_unclamped_witness :
    volume ⟨[], some ⟨4, .playing, some ⟨vdA, 1 / 2⟩⟩⟩ 150 =
      ⟨[.send (.settingVolume 150)],
        ⟨[], some ⟨4, .playing, some ⟨vdA, (3 : ℚ) / 2⟩⟩⟩, none⟩ := by
  have h := C6_volume_unclamped ⟨[], some ⟨4, .playing, some ⟨vdA, 1 / 2⟩⟩⟩
    ⟨4, .playing, some ⟨vdA, 1 / 2⟩⟩ ⟨vdA, 1 / 2⟩ 150 rfl rfl
  rw [h.1]
  norm_num

/-- C7: `remove` with a 1-based position outside `[1, length]` leaves the
whole state unchanged, does not crash, and signals the out-of-range error
by sending exactly one error message ("queue is empty" when the queue is
empty, "invalid song number" otherwise) — in particular never a removal
report; a position inside the range removes exactly the `p`-th queued
element — index `p - 1` of the head-excluded internal list. -/
theorem C7_remove_at (s : BotState) (p : Int) :
    ((p < 1 ∨ (s.queue.length : Int) < p) →
      (remove_song s p).state = s ∧
      (remove_song s p).err = none ∧
      (remove_song s p).events =
        [Event.send (if s.queue = [] then Msg.queueEmptyMsg else Msg.invalidSongNumber)] ∧
      ∀ t, Event.send (Msg.removed t) ∉ (remove_song s p).events) ∧
    (∀ vd, 1 ≤ p → p ≤ (s.queue.length : Int) →
      s.queue.get? (p - 1).toNat = some vd →
      (remove_song s p).state.queue = s.queue.eraseIdx (p - 1).toNat ∧
      (remove_song s p).events = [Event.send (Msg.removed vd.title)]) := by
  constructor
  · intro hout
    by_cases hq : s.queue = []
    · simp [remove_song, hq, sendOnly]
    · simp [remove_song, hq, hout, sendOnly]
  · intro vd h1 h2 hget
    have hq : s.queue ≠ [] := by
      intro h
      rw [h] at h2
      simp at h2
      omega
    have hout : ¬ (p < 1 ∨ (s.queue.length : Int) < p) := by
      push_neg
      exact ⟨h1, h2⟩
    have hidx : (p - 1).toNat = p.toNat - 1 := by omega
    have hget2 : s.queue[p.toNat - 1]? = some vd := by
      rw [← hidx, ← List.get?_eq_getElem?]
      exact hget
    simp [remove_song, hq, hout, hget2]

/-- C7 witness: on the queue `[B, C]`, `remove 2` removes `C` (the second
1-based, head-excluded entry), and `remove 5` leaves the state unchanged,
raises nothing, and signals the out-of-range error with exactly the
"invalid song number" message — no removal reported. -/
theorem C7_remove_at_witness :
    ((remove_song ⟨[vdB, vdC], none⟩ 2).state.queue = [vdB] ∧
      (remove_song ⟨[vdB, vdC], none⟩ 2).events = [Event.send (Msg.removed "C")]) ∧
    ((remove_song ⟨[vdB, vdC], none⟩ 5).state = ⟨[vdB, vdC], none⟩ ∧
      (remove_song ⟨[vdB, vdC], none⟩ 5).err = none ∧
      (remove_song ⟨[vdB, vdC], none⟩ 5).events = [Event.send Msg.invalidSongNumber] ∧
      ∀ t, Event.send (Msg.removed t) ∉ (remove_song ⟨[vdB, vdC], none⟩ 5).events) := by
  constructor
  · exact (C7_remove_at ⟨[vdB, vdC], none⟩ 2).2 vdC (by decide) (by decide) rfl
  · have h := (C7_remove_at ⟨[vdB, vdC], none⟩ 5).1 (by decide)
    exact ⟨h.1, h.2.1, h.2.2.1.trans (by decide), h.2.2.2⟩

/-- Folding `enqueue` appends: the queue after a sequence of enqueues is
the starting queue followed by the enqueued tracks in order. -/
theorem foldl_enqueue (ts init : List VideoData) :
    List.foldl enqueue init ts = init ++ ts := by
  induction ts generalizing init with
  | nil => simp
  | cons t ts ih => simp [enqueue, ih]

/-- C8: after any sequence of enqueues on an empty queue, the `queue`
command lists exactly those tracks in insertion order, labelling the entry
stored at internal 0-based index `i` as `i + 1` for the user. -/
theorem C8_queue_listing (ts : List VideoData) (vc : Option VoiceClient) (h : ts ≠ []) :
    List.foldl enqueue [] ts = ts ∧
    queue_info ⟨List.foldl enqueue [] ts, vc⟩ =
      sendOnly (.queueListing (ts.enum.map fun q => (q.1 + 1, q.2.title))) ⟨ts, vc⟩ := by
  have hfold : List.foldl enqueue [] ts = ts := by simpa using foldl_enqueue ts []
  refine ⟨hfold, ?_⟩
  rw [hfold]
  simp [queue_info, h]

/-- C8 witness: enqueueing A, B, C in order and listing yields the
1-based listing (1, A), (2, B), (3, C). -/
theorem C8_queue_listing_witness :
    List.foldl enqueue [] [vdA, vdB, vdC] = [vdA, vdB, vdC] ∧
    queue_info ⟨List.foldl enqueue [] [vdA, vdB, vdC], none⟩ =
      sendOnly (.queueListing [(1, "A"), (2, "B"), (3, "C")]) ⟨[vdA, vdB, vdC], none⟩ := by
  have h := C8_queue_listing [vdA, vdB, vdC] none (by simp)
  exact ⟨h.1, h.2⟩

/-- C10: for a `play` issued by a user in voice channel `ch`, any connect
or move event precedes the resolver call in the handler's event order, and
the final state is connected to `ch` — whatever the resolver returns,
including `none` (resolution failure), the connection side effect stands. -/
theorem C10_connect_before_resolve (s : BotState) (ch : Nat) (r : Option VideoData) :
    ∃ pre rest, (play s (some ch) r).events = pre ++ Event.resolveQuery :: rest ∧
      (∀ e ∈ pre, e = Event.connect ch ∨ e = Event.moveTo ch) ∧
      ∃ vc, (play s (some ch) r).state.voiceClient = some vc ∧ vc.channel = ch := by
  obtain ⟨vc, hvc, hch⟩ := joinOrMove_channel s ch
  cases r with
  | none =>
    exact ⟨(joinOrMove s ch).1, [], by simp [play], joinOrMove_events s ch,
      vc, by simp [play, hvc], hch⟩
  | some vd =>
    by_cases hp : vc.state = .playing
    · refine ⟨(joinOrMove s ch).1, [.send (.addedToQueue vd.title)], ?_,
        joinOrMove_events s ch, vc, ?_, hch⟩
      · simp [play, hvc, hp]
      · simp [play, hvc, hp]
    · obtain ⟨vc2, hvc2, hch2⟩ := play_next_channel
        ⟨(joinOrMove s ch).2.queue ++ [vd], (joinOrMove s ch).2.voiceClient⟩ vc hvc
      refine ⟨(joinOrMove s ch).1,
        .send (.addedToQueue vd.title) ::
          (play_next ⟨(joinOrMove s ch).2.queue ++ [vd],
            (joinOrMove s ch).2.voiceClient⟩).events,
        ?_, joinOrMove_events s ch, vc2, ?_, hch2.trans hch⟩
      · simp [play, hvc, hp]
      · simpa [play, hvc, hp] using hvc2
